import Mathlib

/-!
Verification development for the Kassa Telegram cash-desk bot
(`index.js` + `models.js`).

The bot lets users file deposit/withdraw requests, routes them to human
admins for approval, credits an internal balance ledger on deposit
approval, and expires stale pending deposits on a timer.

Shallow embedding conventions:
* SQLite tables (`users`, `providers`, `requests`) become Lean lists of
  row structures inside a single `St` state record; `db.get` becomes
  `List.find?`, `UPDATE ... WHERE id=?` becomes a `List.map` touching
  every row whose id matches (exactly what the SQL does), `INSERT`
  appends.
* Times (`Date.now()`, ISO-8601 strings from `nowISO()`) are modelled as
  natural numbers of milliseconds.  ISO-8601 strings of the fixed
  `toISOString` format compare lexicographically exactly as the instants
  they denote compare numerically, and they are always nonempty (hence
  truthy), so `Nat` with `≤` is an order-faithful image.
* Nullable DB columns and possibly-absent JS object fields become
  `Option`; JavaScript dynamic values that flow through `details` become
  the `Json` inductive below.
* Outbound Telegram messages are fire-and-forget in the source (wrapped
  in try/catch); we model only which reply/notice a handler produces
  (the `Reply` tag), not message delivery.
-/

/-- JavaScript/JSON value as stored and passed around by the bot.
Numbers are modelled as integers: every number this program produces
(`parseInt` amounts, balances) is an integer.  `JSON.parse` of a
fractional or exponent numeral is modelled as a parse failure; this only
affects which strings count as malformed, never the value of a
successfully parsed integer. -/
inductive Json where
  | null : Json
  | bool (b : Bool) : Json
  | num (n : Int) : Json
  | str (s : String) : Json
  | arr (xs : List Json) : Json
  | obj (kvs : List (String × Json)) : Json
deriving Repr

/-- JavaScript truthiness: `null`, `false`, `0` and `""` are falsy;
objects and arrays (even empty ones) are truthy. -/
def truthy : Json → Bool
  | .null => false
  | .bool b => b
  | .num n => n != 0
  | .str s => s != ""
  | .arr _ => true
  | .obj _ => true

/-- `typeof v === "object"` for a non-null value: objects and arrays. -/
def isObjectLike : Json → Bool
  | .obj _ => true
  | .arr _ => true
  | _ => false

/-- Is the value a plain object (what the spec's word "object" denotes)? -/
def isObj : Json → Bool
  | .obj _ => true
  | _ => false

/-- Property read `v.k` restricted to objects; on any other value the
JS read yields `undefined`, modelled as `none`. -/
def fieldVal : Json → String → Option Json
  | .obj kvs, k => (kvs.find? (fun p => p.1 = k)).map (fun p => p.2)
  | _, _ => none

/-- Key insertion while building an object during JSON parsing: a
duplicate key keeps its first position but takes the later value,
matching `JSON.parse` semantics. -/
def insertKV (kvs : List (String × Json)) (k : String) (v : Json) : List (String × Json) :=
  if kvs.any (fun p => p.1 = k) then
    kvs.map (fun p => if p.1 = k then (k, v) else p)
  else kvs ++ [(k, v)]

-- The JSON structural characters, built from their code points.
def lbraceC : Char := Char.ofNat 123
def rbraceC : Char := Char.ofNat 125
def dquoteC : Char := Char.ofNat 34
def bslashC : Char := Char.ofNat 92

/-- Whitespace for JavaScript `trim` / `parseInt` / `\s`: space, tab,
line feed, carriage return, vertical tab, form feed. -/
def isWSChar (c : Char) : Bool :=
  c = ' ' || c = Char.ofNat 9 || c = Char.ofNat 10 || c = Char.ofNat 13 ||
  c = Char.ofNat 11 || c = Char.ofNat 12

/-- JavaScript `String.prototype.trim` (ASCII whitespace fragment). -/
def jsTrim (s : String) : String :=
  ⟨((s.data.dropWhile isWSChar).reverse.dropWhile isWSChar).reverse⟩

/-- ASCII uppercasing, the fragment of `toUpperCase` this bot feeds
(user-typed codes). -/
def jsUpper (s : String) : String :=
  ⟨s.data.map (fun c => if 'a' ≤ c && c ≤ 'z' then Char.ofNat (c.toNat - 32) else c)⟩

/-- ASCII lowercasing (`toLowerCase` fragment, used on provider names). -/
def jsLower (s : String) : String :=
  ⟨s.data.map (fun c => if 'A' ≤ c && c ≤ 'Z' then Char.ofNat (c.toNat + 32) else c)⟩

def digitsVal (ds : List Char) : Nat :=
  ds.foldl (fun acc c => 10 * acc + (c.toNat - 48)) 0

/-- JavaScript `parseInt(s, 10)`: skip leading whitespace, optional
sign, then the longest digit prefix; `NaN` (here `none`) when no digit
follows.  Trailing garbage is ignored, so `parseInt("5000abc") = 5000`. -/
def parseIntJS (s : String) : Option Int :=
  let l := s.data.dropWhile isWSChar
  let (sign, l2) :=
    match l with
    | c :: rest =>
      if c = '-' then ((-1 : Int), rest)
      else if c = '+' then ((1 : Int), rest)
      else ((1 : Int), l)
    | [] => ((1 : Int), ([] : List Char))
  let ds := l2.takeWhile Char.isDigit
  if ds.isEmpty then none else some (sign * (digitsVal ds : Int))

/-- `t.replace(/\s+/g, "")` — drop every whitespace character. -/
def stripWS (s : String) : String :=
  ⟨s.data.filter (fun c => !isWSChar c)⟩

/-- `val.toLowerCase().replace(/[^a-z0-9]+/g, "")` used to derive a
provider id from its display name. -/
def sanitizeId (s : String) : String :=
  ⟨(jsLower s).data.filter (fun c => ('a' ≤ c && c ≤ 'z') || ('0' ≤ c && c ≤ '9'))⟩

/-- `validateSecretCode`: the regex `^[A-Z0-9]{4}$`. -/
def validateSecretCode (code : String) : Bool :=
  code.length = 4 &&
  code.data.all (fun c => ('A' ≤ c && c ≤ 'Z') || ('0' ≤ c && c ≤ '9'))

/-- The receiving-card regex `^\d{12,20}$`. -/
def cardOk (card : String) : Bool :=
  12 ≤ card.length && card.length ≤ 20 && card.data.all Char.isDigit

/-- JSON whitespace (space, tab, LF, CR). -/
def isJsonWS (c : Char) : Bool :=
  c = ' ' || c = Char.ofNat 9 || c = Char.ofNat 10 || c = Char.ofNat 13

def skipJsonWS (l : List Char) : List Char := l.dropWhile isJsonWS

def isHexDigit (c : Char) : Bool :=
  c.isDigit || ('a' ≤ c && c ≤ 'f') || ('A' ≤ c && c ≤ 'F')

def hexVal (c : Char) : Nat :=
  if c.isDigit then c.toNat - 48
  else if 'a' ≤ c && c ≤ 'f' then c.toNat - 87
  else c.toNat - 55

/-- Parse the body of a JSON string literal (after the opening quote),
returning the decoded characters and the input after the closing quote. -/
def parseJsonStr (fuel : Nat) (l : List Char) : Option (List Char × List Char) :=
  match fuel with
  | 0 => none
  | fuel + 1 =>
    match l with
    | [] => none
    | c :: rest =>
      if c = dquoteC then some ([], rest)
      else if c = bslashC then
        match rest with
        | [] => none
        | e :: rest2 =>
          let dec : Option (Char × List Char) :=
            if e = dquoteC then some (dquoteC, rest2)
            else if e = bslashC then some (bslashC, rest2)
            else if e = '/' then some ('/', rest2)
            else if e = 'b' then some (Char.ofNat 8, rest2)
            else if e = 'f' then some (Char.ofNat 12, rest2)
            else if e = 'n' then some (Char.ofNat 10, rest2)
            else if e = 'r' then some (Char.ofNat 13, rest2)
            else if e = 't' then some (Char.ofNat 9, rest2)
            else if e = 'u' then
              match rest2 with
              | h1 :: h2 :: h3 :: h4 :: rest3 =>
                if isHexDigit h1 && isHexDigit h2 && isHexDigit h3 && isHexDigit h4 then
                  some (Char.ofNat (((hexVal h1 * 16 + hexVal h2) * 16 + hexVal h3) * 16 + hexVal h4), rest3)
                else none
              | _ => none
            else none
          match dec with
          | none => none
          | some (ch, rest3) =>
            match parseJsonStr fuel rest3 with
            | none => none
            | some (cs, rem) => some (ch :: cs, rem)
      else if c.toNat < 32 then none
      else
        match parseJsonStr fuel rest with
        | none => none
        | some (cs, rem) => some (c :: cs, rem)

/-- Parse a JSON number (integer fragment: optional minus, `0` or a
nonzero-led digit run; fraction/exponent numerals are rejected, see
`Json`). -/
def parseJsonNum (l : List Char) : Option (Int × List Char) :=
  let (neg, l1) :=
    match l with
    | c :: rest => if c = '-' then (true, rest) else (false, l)
    | [] => (false, ([] : List Char))
  match l1 with
  | [] => none
  | d :: _ =>
    if !d.isDigit then none
    else
      let ds := l1.takeWhile Char.isDigit
      let rest := l1.dropWhile Char.isDigit
      if ds.length > 1 && d = '0' then none
      else
        let v : Int := (digitsVal ds : Int)
        some (if neg then -v else v, rest)

mutual

/-- Recursive-descent JSON value parser (models `JSON.parse`). -/
def parseJsonVal (fuel : Nat) (l : List Char) : Option (Json × List Char) :=
  match fuel with
  | 0 => none
  | fuel + 1 =>
    match l with
    | [] => none
    | c :: rest =>
      if c = dquoteC then
        match parseJsonStr (rest.length + 1) rest with
        | none => none
        | some (cs, rem) => some (.str ⟨cs⟩, rem)
      else if c = lbraceC then
        let rest1 := skipJsonWS rest
        match rest1 with
        | [] => none
        | c2 :: rest2 =>
          if c2 = rbraceC then some (.obj [], rest2)
          else
            match parseJsonMembers fuel [] rest1 with
            | none => none
            | some (kvs, rem) => some (.obj kvs, rem)
      else if c = '[' then
        let rest1 := skipJsonWS rest
        match rest1 with
        | [] => none
        | c2 :: rest2 =>
          if c2 = ']' then some (.arr [], rest2)
          else
            match parseJsonElems fuel rest1 with
            | none => none
            | some (xs, rem) => some (.arr xs, rem)
      else if c = 't' then
        match l with
        | 't' :: 'r' :: 'u' :: 'e' :: rem => some (.bool true, rem)
        | _ => none
      else if c = 'f' then
        match l with
        | 'f' :: 'a' :: 'l' :: 's' :: 'e' :: rem => some (.bool false, rem)
        | _ => none
      else if c = 'n' then
        match l with
        | 'n' :: 'u' :: 'l' :: 'l' :: rem => some (.null, rem)
        | _ => none
      else
        match parseJsonNum l with
        | none => none
        | some (v, rem) => some (.num v, rem)

/-- Object members: `"k" : v (, "k" : v)*` followed by a closing brace. -/
def parseJsonMembers (fuel : Nat) (acc : List (String × Json)) (l : List Char) :
    Option (List (String × Json) × List Char) :=
  match fuel with
  | 0 => none
  | fuel + 1 =>
    match skipJsonWS l with
    | [] => none
    | c :: rest =>
      if c = dquoteC then
        match parseJsonStr (rest.length + 1) rest with
        | none => none
        | some (kcs, rem1) =>
          match skipJsonWS rem1 with
          | ':' :: rem2 =>
            match parseJsonVal fuel (skipJsonWS rem2) with
            | none => none
            | some (v, rem3) =>
              let acc2 := insertKV acc ⟨kcs⟩ v
              match skipJsonWS rem3 with
              | ',' :: rem4 => parseJsonMembers fuel acc2 rem4
              | c3 :: rem4 => if c3 = rbraceC then some (acc2, rem4) else none
              | [] => none
          | _ => none
      else none

/-- Array elements: `v (, v)* ]`. -/
def parseJsonElems (fuel : Nat) (l : List Char) : Option (List Json × List Char) :=
  match fuel with
  | 0 => none
  | fuel + 1 =>
    match parseJsonVal fuel (skipJsonWS l) with
    | none => none
    | some (v, rem) =>
      match skipJsonWS rem with
      | ',' :: rem2 =>
        match parseJsonElems fuel rem2 with
        | none => none
        | some (xs, rem3) => some (v :: xs, rem3)
      | ']' :: rem2 => some ([v], rem2)
      | _ => none

end

/-- `JSON.parse`: the whole input must be one JSON value surrounded by
whitespace, otherwise the parse throws (modelled as `none`). -/
def jsonParse (s : String) : Option Json :=
  match parseJsonVal (s.data.length + 1) (skipJsonWS s.data) with
  | none => none
  | some (v, rem) => if (skipJsonWS rem).isEmpty then some v else none

def hexDigitChar (n : Nat) : Char :=
  if n < 10 then Char.ofNat (48 + n) else Char.ofNat (87 + n)

/-- Escape one character for a JSON string literal. -/
def escapeChar (c : Char) : List Char :=
  if c = dquoteC then [bslashC, dquoteC]
  else if c = bslashC then [bslashC, bslashC]
  else if c = Char.ofNat 8 then [bslashC, 'b']
  else if c = Char.ofNat 12 then [bslashC, 'f']
  else if c = Char.ofNat 10 then [bslashC, 'n']
  else if c = Char.ofNat 13 then [bslashC, 'r']
  else if c = Char.ofNat 9 then [bslashC, 't']
  else if c.toNat < 32 then
    [bslashC, 'u', '0', '0', hexDigitChar (c.toNat / 16), hexDigitChar (c.toNat % 16)]
  else [c]

def quoteJsonString (s : String) : String :=
  ⟨dquoteC :: (s.data.flatMap escapeChar) ++ [dquoteC]⟩

def commaSep (parts : List String) : String :=
  String.intercalate "," parts

mutual

/-- `JSON.stringify` on the values this program writes (no `undefined`
members: absent fields are omitted before stringifying, see `mkObj`). -/
def jsonStringify : Json → String
  | .null => "null"
  | .bool true => "true"
  | .bool false => "false"
  | .num n => toString n
  | .str s => quoteJsonString s
  | .arr xs => "[" ++ commaSep (stringifyList xs) ++ "]"
  | .obj kvs => ⟨[lbraceC]⟩ ++ commaSep (stringifyMembers kvs) ++ ⟨[rbraceC]⟩

def stringifyList : List Json → List String
  | [] => []
  | x :: xs => jsonStringify x :: stringifyList xs

def stringifyMembers : List (String × Json) → List String
  | [] => []
  | (k, v) :: kvs => (quoteJsonString k ++ ":" ++ jsonStringify v) :: stringifyMembers kvs

end

/-- A nullable TEXT column value lifted into the JS value space. -/
def optStrToJson : Option String → Json
  | none => .null
  | some s => .str s

/-- JavaScript string coercion `String(v)` for the primitive values that
can reach `JSON.parse` through `safeParse` (truthy non-objects). -/
def jsCoerceString : Json → String
  | .str s => s
  | .num n => toString n
  | .bool true => "true"
  | .bool false => "false"
  | .null => "null"
  | v => jsonStringify v

/-- `safeParse` (index.js lines 106–115): returns the empty object when
the value is falsy, the value itself when it is already an object or
array, and otherwise `JSON.parse` of its string form, falling back to
the empty object when the parse throws. -/
def safeParse (v : Json) : Json :=
  if !truthy v then .obj []
  else if isObjectLike v then v
  else
    match jsonParse (jsCoerceString v) with
    | some w => w
    | none => .obj []

/-! ## Data model (models.js) -/

/-- Row of `users` (id INTEGER PRIMARY KEY, username TEXT, balance
INTEGER DEFAULT 0, secret_code TEXT). -/
structure UserRow where
  id : Int
  username : Option String
  balance : Option Int
  secret_code : Option String
deriving Repr, DecidableEq

/-- Row of `providers`. -/
structure Provider where
  id : String
  name : String
deriving Repr, DecidableEq

/-- Row of `requests`.  `details` holds the raw stored TEXT (a JSON
string written by `createRequest`); parsing happens on read via
`safeParse`. -/
structure Request where
  id : String
  user_id : Int
  provider_id : Option String
  provider_name : Option String
  type : String
  amount : Option Int
  details : Option String
  status : String
  created_at : Nat
  expires_at : Option Nat
  resolved_at : Option Nat
  admin_note : Option String
deriving Repr, DecidableEq

/-- The durable store. -/
structure St where
  users : List UserRow
  providers : List Provider
  requests : List Request
deriving Repr, DecidableEq

/-- Per-user session `data` accumulator (JS: a plain object gaining
fields as the flow advances; absent fields are `undefined`). -/
structure SessData where
  step : Option String := none
  providerId : Option String := none
  providerName : Option String := none
  userGameId : Option String := none
  amount : Option Int := none
  expiresAt : Option Nat := none
  code : Option String := none
  card : Option String := none
deriving Repr, DecidableEq

def emptyData : SessData := {}

/-- Telegraf session: `{ flow: null, data: {}, adminMode: null }`. -/
structure Session where
  flow : Option String := none
  data : SessData := emptyData
  adminMode : Option String := none
deriving Repr, DecidableEq

/-- Environment-derived configuration. -/
structure Cfg where
  adminIds : List String
  minDeposit : Int
  checkTimeoutMin : Nat
deriving Repr, DecidableEq

/-- `isAdmin`: `ADMIN_IDS.includes(String(userId))`. -/
def isAdmin (cfg : Cfg) (userId : Int) : Bool :=
  cfg.adminIds.contains (toString userId)

/-- Which user-visible message/notice a handler produced.  Message texts
are Uzbek strings in the source; only their identity matters here. -/
inductive Reply where
  | noReply
  | passthrough
  | adminsOnly
  | notFound
  | alreadyResolved
  | approvedEdit
  | rejectedEdit
  | promptAmount
  | badAmount
  | promptPayment
  | promptCode
  | badCode
  | promptCard
  | badCard
  | withdrawAccepted
  | checkAccepted
  | cancelled
  | providerAdded
  | providerRemoved
  | provNotFound
  | promptGameId
  | chooseFromMenu
  | askProviderName
  | askProviderKey
  | adminInfo
deriving Repr, DecidableEq

/-- The two alternatives of the callback regex
`^admin:(approve|reject):([A-Z0-9]{8})$`. -/
inductive Decision where
  | approve
  | reject
deriving Repr, DecidableEq

/-- Parsed callback-button events (`bot.action` handlers). -/
inductive ActEv where
  | cancelFlow
  | prov (pid : String)
  | adminResolve (d : Decision) (id : String)
  | apAdd
  | apRemove
  | apList
  | apPending
  | apStats
  | apExport
deriving Repr, DecidableEq

/-! ## Database helper functions (index.js lines 45–115) -/

/-- JS `||` with `null` fallback on a number (`req.amount || null`):
`0` is falsy and becomes `null`. -/
def jsOrNullInt : Option Int → Option Int
  | some n => if n = 0 then none else some n
  | none => none

/-- `x || "pending"` on a string. -/
def jsOrStr (a b : String) : String := if a = "" then b else a

/-- `userRow.balance || 0`. -/
def jsOr0 : Option Int → Int
  | some b => b
  | none => 0

/-- Build the `details` object literal; a field whose JS value is
`undefined` is omitted, exactly as `JSON.stringify` omits it. -/
def mkObj (fields : List (String × Option Json)) : Json :=
  .obj (fields.filterMap (fun p => (p.2).map (fun v => (p.1, v))))

/-- `createRequest` (lines 62–75): INSERT a new row.  Both call sites
pass an explicit fresh id and `status = "pending"`. -/
def createRequest (st : St) (id : String) (user_id : Int)
    (provider_id provider_name : Option String) (ty : String)
    (amount : Option Int) (details : Json) (status : String)
    (expires_at : Option Nat) (now : Nat) : St :=
  let row : Request :=
    { id := id
      user_id := user_id
      provider_id := provider_id
      provider_name := provider_name
      type := ty
      amount := jsOrNullInt amount
      details := some (jsonStringify details)
      status := jsOrStr status "pending"
      created_at := now
      expires_at := expires_at
      resolved_at := none
      admin_note := none }
  { st with requests := st.requests ++ [row] }

/-- `updateRequestStatus` (lines 78–84): `UPDATE requests SET status=?,
resolved_at=?, admin_note=? WHERE id=?` touches every row whose id
matches. -/
def updateRequestStatus (st : St) (id : String) (status : String)
    (admin_note : Option String) (now : Nat) : St :=
  { st with
    requests := st.requests.map fun r =>
      if r.id = id then
        { r with status := status, resolved_at := some now, admin_note := admin_note }
      else r }

/-- `db.get("SELECT * FROM requests WHERE id=?")`: first matching row. -/
def findRequest (st : St) (id : String) : Option Request :=
  st.requests.find? (fun r => r.id = id)

/-- The parse `getRequest` applies to the stored `details` TEXT. -/
def reqDetailsParsed (r : Request) : Json :=
  safeParse (optStrToJson r.details)

/-- `db.get("SELECT ... FROM users WHERE id=?")`. -/
def findUser (st : St) (uid : Int) : Option UserRow :=
  st.users.find? (fun u => u.id = uid)

/-- `INSERT OR IGNORE INTO providers`: insert unless the id exists. -/
def insertProviderIgnore (st : St) (id name : String) : St :=
  if st.providers.any (fun p => p.id = id) then st
  else { st with providers := st.providers ++ [{ id := id, name := name }] }

/-- `DELETE FROM providers WHERE id=? OR lower(name)=lower(?)`. -/
def removeProvider (st : St) (key : String) : St :=
  { st with providers := st.providers.filter (fun p => !(p.id = key || jsLower p.name = jsLower key)) }

/-! ## Admin resolve handler (index.js lines 357–403) -/

/-- JavaScript `ToNumber` on the values reachable here; `none` is NaN.
Strings use the integer-literal fragment (see `Json` on numerals);
arrays/objects are treated as NaN. -/
def toNumber : Json → Option Int
  | .null => some 0
  | .bool b => some (if b then 1 else 0)
  | .num n => some n
  | .str s =>
    let t := jsTrim s
    if t = "" then some 0
    else
      let l := t.data
      let (sign, l2) :=
        match l with
        | c :: rest =>
          if c = '-' then ((-1 : Int), rest)
          else if c = '+' then ((1 : Int), rest)
          else ((1 : Int), l)
        | [] => ((1 : Int), ([] : List Char))
      if !l2.isEmpty && l2.all Char.isDigit then some (sign * (digitsVal l2 : Int))
      else none
  | _ => none

/-- The JS comparison `amount > 0` (`NaN > 0` is false). -/
def jsGtZero (v : Json) : Bool :=
  match toNumber v with
  | some n => 0 < n
  | none => false

/-- JS `a || b`. -/
def jsOrJson (a b : Json) : Json := if truthy a then a else b

def optIntToJson : Option Int → Json
  | none => .null
  | some n => .num n

/-- `const amount = req.amount || (details.amount || 0)` (line 372);
an absent `details.amount` is `undefined`, modelled by `Json.null`
(both are falsy and compare below zero identically in the uses here). -/
def effAmount (reqAmount : Option Int) (details : Json) : Json :=
  jsOrJson (optIntToJson reqAmount)
    (jsOrJson ((fieldVal details "amount").getD .null) (.num 0))

/-- The value credited when the `amount && amount > 0` guard passes.
For a number this is the number itself; a truthy non-number amount
would make JS corrupt the balance by string coercion — such values
never pass through this program (its `details` never carry `amount`),
and we model the credit numerically. -/
def creditValue (v : Json) : Int :=
  (toNumber v).getD 0

/-- `UPDATE users SET balance = ? WHERE id = ?` preceded by the read of
the current balance (lines 374–377); no row, no credit. -/
def creditUser (st : St) (uid : Int) (amt : Int) : St :=
  match findUser st uid with
  | none => st
  | some u =>
    let newBal := jsOr0 u.balance + amt
    { st with
      users := st.users.map fun v =>
        if v.id = uid then { v with balance := some newBal } else v }

/-- The admin approve/reject callback handler
(`bot.action(/^admin:(approve|reject):([A-Z0-9]{8})$/)`, lines
357–403).  Returns the updated store and the notice shown to the
clicking admin. -/
def adminResolve (cfg : Cfg) (st : St) (fromId : Int) (d : Decision)
    (id : String) (now : Nat) : St × Reply :=
  if !isAdmin cfg fromId then (st, .adminsOnly)
  else
    match findRequest st id with
    | none => (st, .notFound)
    | some req =>
      if req.status ≠ "pending" then (st, .alreadyResolved)
      else
        match d with
        | .approve =>
          let st1 := updateRequestStatus st id "approved"
            (some ("Manually approved by " ++ toString fromId)) now
          if req.type = "deposit" then
            let details := safeParse (reqDetailsParsed req)
            let amount := effAmount req.amount details
            if truthy amount && jsGtZero amount then
              (creditUser st1 req.user_id (creditValue amount), .approvedEdit)
            else (st1, .approvedEdit)
          else (st1, .approvedEdit)
        | .reject =>
          (updateRequestStatus st id "rejected"
            (some ("Rejected by " ++ toString fromId)) now, .rejectedEdit)

/-! ## Text / photo / action handlers (index.js lines 215–354) -/

/-- Truthiness of a nullable string, for `s.adminMode` checks. -/
def optStrTruthy : Option String → Bool
  | some v => v != ""
  | none => false

/-- The admin free-text branch of `bot.on("text")` (lines 221–237);
only reached when the sender is an admin and `adminMode` is truthy.
`randNum` stands for `Math.floor(Math.random() * 10000)`. -/
def adminModeText (st : St) (s : Session) (t : String) (randNum : Nat) :
    St × Session × Reply :=
  match s.adminMode with
  | some "add_provider" =>
    let id0 := sanitizeId t
    let id := if id0 = "" then "prov" ++ toString randNum else id0
    (insertProviderIgnore st id t, { s with adminMode := none }, .providerAdded)
  | some "remove_provider" =>
    (removeProvider st (jsLower t), { s with adminMode := none }, .providerRemoved)
  | _ => (st, s, .noReply)

/-- The `deposit_amount` step (lines 246–256). -/
def depositAmountText (cfg : Cfg) (st : St) (s : Session) (t : String) (now : Nat) :
    St × Session × Reply :=
  match parseIntJS t with
  | none => (st, s, .badAmount)
  | some amount =>
    if amount < cfg.minDeposit then (st, s, .badAmount)
    else
      (st,
       { s with data := { s.data with
           amount := some amount
           step := some "deposit_wait_check"
           expiresAt := some (now + cfg.checkTimeoutMin * 60000) } },
       .promptPayment)

/-- The `withdraw_code` step (lines 266–271). -/
def withdrawCodeText (st : St) (s : Session) (t : String) :
    St × Session × Reply :=
  let code := jsUpper t
  if !validateSecretCode code then (st, s, .badCode)
  else
    (st,
     { s with data := { s.data with code := some code, step := some "withdraw_card" } },
     .promptCard)

/-- The `withdraw_card` step (lines 273–305): on a valid card number the
withdraw Request is created and the session reset. -/
def withdrawCardText (st : St) (s : Session) (fromId : Int) (t : String)
    (freshId : String) (now : Nat) : St × Session × Reply :=
  let card := stripWS t
  if !cardOk card then (st, s, .badCard)
  else
    let details := mkObj
      [("userGameId", (s.data.userGameId).map .str),
       ("code", (s.data.code).map .str),
       ("card", some (.str card))]
    let st1 := createRequest st freshId fromId s.data.providerId s.data.providerName
      "withdraw" none details "pending" none now
    (st1, { s with flow := none, data := emptyData }, .withdrawAccepted)

/-- `bot.on("text")` (lines 215–309).  `freshId` stands for the
`nanoid()` draw a request creation would make. -/
def onText (cfg : Cfg) (st : St) (s : Session) (fromId : Int) (msgText : String)
    (now : Nat) (freshId : String) (randNum : Nat) : St × Session × Reply :=
  let t := jsTrim msgText
  if isAdmin cfg fromId && optStrTruthy s.adminMode then
    adminModeText st s t randNum
  else if s.flow = some "deposit" ∧ s.data.step = some "deposit_userid" then
    (st,
     { s with data := { s.data with userGameId := some t, step := some "deposit_amount" } },
     .promptAmount)
  else if s.flow = some "deposit" ∧ s.data.step = some "deposit_amount" then
    depositAmountText cfg st s t now
  else if s.flow = some "withdraw" ∧ s.data.step = some "withdraw_userid" then
    (st,
     { s with data := { s.data with userGameId := some t, step := some "withdraw_code" } },
     .promptCode)
  else if s.flow = some "withdraw" ∧ s.data.step = some "withdraw_code" then
    withdrawCodeText st s t
  else if s.flow = some "withdraw" ∧ s.data.step = some "withdraw_card" then
    withdrawCardText st s fromId t freshId now
  else (st, s, .passthrough)

/-- `bot.on("photo")` (lines 312–347): only acts in
`deposit / deposit_wait_check`; creates the deposit Request with the
`expires_at` captured in the session at the amount step (the stored
ISO string is always truthy, so the `|| fallback` fires only when the
field is absent). -/
def onPhoto (cfg : Cfg) (st : St) (s : Session) (fromId : Int) (fileId : String)
    (now : Nat) (freshId : String) : St × Session × Reply :=
  if !(s.flow = some "deposit" ∧ s.data.step = some "deposit_wait_check") then
    (st, s, .noReply)
  else
    let expiresAt :=
      match s.data.expiresAt with
      | some e => e
      | none => now + cfg.checkTimeoutMin * 60000
    let details := mkObj
      [("userGameId", (s.data.userGameId).map .str),
       ("checkFileId", some (.str fileId))]
    let st1 := createRequest st freshId fromId s.data.providerId s.data.providerName
      "deposit" s.data.amount details "pending" (some expiresAt) now
    (st1, { s with flow := none, data := emptyData }, .checkAccepted)

/-- Callback-button dispatch (`bot.action` handlers).  `ap:list`,
`ap:pending`, `ap:stats` and `ap:export` only read the store and send
messages; they are modelled as store-preserving. -/
def onAction (cfg : Cfg) (st : St) (s : Session) (fromId : Int) (ev : ActEv)
    (now : Nat) : St × Session × Reply :=
  match ev with
  | .cancelFlow =>
    (st, { s with flow := none, data := emptyData }, .cancelled)
  | .prov pid =>
    let prov :=
      match st.providers.find? (fun p => p.id = pid) with
      | some p => some p
      | none => st.providers.find? (fun p => p.name = pid)
    (match prov with
     | none => (st, s, .provNotFound)
     | some p =>
       let s1 := { s with data := { s.data with
         providerId := some p.id, providerName := some p.name } }
       if s1.flow = some "deposit" then
         (st, { s1 with data := { s1.data with step := some "deposit_userid" } }, .promptGameId)
       else if s1.flow = some "withdraw" then
         (st, { s1 with data := { s1.data with step := some "withdraw_userid" } }, .promptGameId)
       else (st, s1, .chooseFromMenu))
  | .adminResolve d id =>
    let (st1, r) := adminResolve cfg st fromId d id now
    (st1, s, r)
  | .apAdd =>
    if !isAdmin cfg fromId then (st, s, .noReply)
    else (st, { s with adminMode := some "add_provider" }, .askProviderName)
  | .apRemove =>
    if !isAdmin cfg fromId then (st, s, .noReply)
    else (st, { s with adminMode := some "remove_provider" }, .askProviderKey)
  | .apList => (st, s, .adminInfo)
  | .apPending => (st, s, .adminInfo)
  | .apStats => (st, s, .adminInfo)
  | .apExport => (st, s, .adminInfo)

/-! ## Expiry sweeper (index.js lines 492–510) -/

/-- `r.expires_at && r.expires_at <= now` (stored ISO strings are
nonempty, hence truthy, and compare as their instants). -/
def jsTimeLe : Option Nat → Nat → Bool
  | some e, n => e ≤ n
  | none, _ => false

/-- `UPDATE requests SET status='expired', resolved_at=? WHERE id=?`. -/
def expireRow (st : St) (now : Nat) (id : String) : St :=
  { st with
    requests := st.requests.map fun r =>
      if r.id = id then { r with status := "expired", resolved_at := some now } else r }

/-- One sweeper tick: snapshot the pending rows with non-null
`expires_at`, then expire each overdue one row at a time. -/
def sweepTick (st : St) (now : Nat) : St :=
  let pend := st.requests.filter (fun r => r.status = "pending" && (r.expires_at).isSome)
  pend.foldl (fun acc r => if jsTimeLe r.expires_at now then expireRow acc now r.id else acc) st

/-! ## Concrete states used to instantiate the theorems -/

def wCfg : Cfg := { adminIds := ["7"], minDeposit := 5000, checkTimeoutMin := 5 }

def wDepDetails : Json :=
  mkObj [("userGameId", some (.str "g1")), ("checkFileId", some (.str "f1"))]

def wDepReq : Request :=
  { id := "ABCD2345", user_id := 9, provider_id := some "coldbet",
    provider_name := some "ColdBet", type := "deposit", amount := some 10000,
    details := some (jsonStringify wDepDetails), status := "pending",
    created_at := 0, expires_at := some 300000, resolved_at := none, admin_note := none }

def wUser : UserRow :=
  { id := 9, username := none, balance := some 0, secret_code := some "AB12" }

def wProv : Provider := { id := "coldbet", name := "ColdBet" }

def wSt : St := { users := [wUser], providers := [wProv], requests := [wDepReq] }

/-- A stored deposit request whose `amount` column is NULL but whose
`details` JSON carries a positive `amount` member. -/
def cxReq : Request :=
  { id := "EFGH6789", user_id := 9, provider_id := some "coldbet",
    provider_name := some "ColdBet", type := "deposit", amount := none,
    details := some (jsonStringify (Json.obj [("amount", Json.num 500)])),
    status := "pending", created_at := 0, expires_at := none,
    resolved_at := none, admin_note := none }

def cxSt : St := { users := [wUser], providers := [wProv], requests := [cxReq] }

/-- Same identity and balance as `wUser` but another stored secret code. -/
def wUserB : UserRow := { wUser with secret_code := some "ZZ99" }

def wStB : St := { wSt with users := [wUserB] }

def wWithdrawSess : Session :=
  { flow := some "withdraw"
    data := { step := some "withdraw_card", providerId := some "coldbet",
              providerName := some "ColdBet", userGameId := some "g1",
              code := some "A9K3" }
    adminMode := none }

def wCodeSess : Session :=
  { flow := some "withdraw"
    data := { step := some "withdraw_code", providerId := some "coldbet",
              providerName := some "ColdBet", userGameId := some "g1" }
    adminMode := none }

def wAmountSess : Session :=
  { flow := some "deposit"
    data := { step := some "deposit_amount", providerId := some "coldbet",
              providerName := some "ColdBet", userGameId := some "g1" }
    adminMode := none }

/-! ## Helper lemmas -/

theorem creditUser_requests (st : St) (uid : Int) (amt : Int) :
    (creditUser st uid amt).requests = st.requests := by
  unfold creditUser
  split <;> rfl

theorem creditUser_providers (st : St) (uid : Int) (amt : Int) :
    (creditUser st uid amt).providers = st.providers := by
  unfold creditUser
  split <;> rfl

theorem findRequest_id {st : St} {idv : String} {req : Request}
    (hf : findRequest st idv = some req) : req.id = idv := by
  have h := List.find?_some hf
  exact of_decide_eq_true h

theorem findRequest_mem {st : St} {idv : String} {req : Request}
    (hf : findRequest st idv = some req) : req ∈ st.requests :=
  List.mem_of_find?_eq_some hf

theorem findRequest_update_self (st : St) (idv stx : String) (note : Option String)
    (t : Nat) (req : Request) (hf : findRequest st idv = some req) :
    findRequest (updateRequestStatus st idv stx note t) idv
      = some { req with status := stx, resolved_at := some t, admin_note := note } := by
  have hid : req.id = idv := findRequest_id hf
  unfold findRequest updateRequestStatus
  rw [List.find?_map]
  have hcomp :
      ((fun r : Request => decide (r.id = idv)) ∘
        (fun r : Request => if r.id = idv then
          { r with status := stx, resolved_at := some t, admin_note := note } else r))
      = (fun r : Request => decide (r.id = idv)) := by
    funext r
    by_cases h : r.id = idv <;> simp [h]
  rw [hcomp]
  unfold findRequest at hf
  rw [hf]
  simp [hid]

theorem adminResolve_requests_pending (cfg : Cfg) (st : St) (a : Int) (d : Decision)
    (idv : String) (t : Nat) (req : Request)
    (h1 : isAdmin cfg a = true) (hf : findRequest st idv = some req)
    (hp : req.status = "pending") :
    ((adminResolve cfg st a d idv t).1).requests
      = (updateRequestStatus st idv
          (match d with | .approve => "approved" | .reject => "rejected")
          (some ((match d with
                  | .approve => "Manually approved by "
                  | .reject => "Rejected by ") ++ toString a)) t).requests := by
  cases d with
  | approve =>
    simp only [adminResolve, h1, hf, hp, Bool.not_true, Bool.false_eq_true, if_false,
      ne_eq, not_true_eq_false, ite_false, ite_true]
    split
    · split <;> simp [creditUser_requests]
    · rfl
  | reject =>
    simp [adminResolve, h1, hf, hp]

theorem adminResolve_already (cfg : Cfg) (st : St) (a : Int) (d : Decision)
    (idv : String) (t : Nat) (req : Request)
    (h : isAdmin cfg a = true) (hf : findRequest st idv = some req)
    (hs : req.status ≠ "pending") :
    adminResolve cfg st a d idv t = (st, Reply.alreadyResolved) := by
  unfold adminResolve
  rw [h, hf]
  simp [hs]

/-- C1: When the admin approve/reject action is invoked twice on the same
request id by authorized admins (starting from a state where that id
names a pending request), exactly one invocation mutates state: the
first changes the request row, and the second returns the
`AlreadyResolved` notice and returns the first invocation's state
unchanged (hence the request's status and the owning user's balance are
those the first invocation produced). -/
theorem resolve_twice_second_noop (cfg : Cfg) (st : St) (a1 a2 : Int)
    (d1 d2 : Decision) (idv : String) (t1 t2 : Nat) (req : Request)
    (h1 : isAdmin cfg a1 = true) (h2 : isAdmin cfg a2 = true)
    (hf : findRequest st idv = some req) (hp : req.status = "pending") :
    findRequest (adminResolve cfg st a1 d1 idv t1).1 idv ≠ findRequest st idv ∧
    adminResolve cfg (adminResolve cfg st a1 d1 idv t1).1 a2 d2 idv t2
      = ((adminResolve cfg st a1 d1 idv t1).1, Reply.alreadyResolved) := by
  cases d1 with
  | approve =>
    have hreqs : ((adminResolve cfg st a1 .approve idv t1).1).requests
        = (updateRequestStatus st idv "approved"
            (some ("Manually approved by " ++ toString a1)) t1).requests :=
      adminResolve_requests_pending cfg st a1 .approve idv t1 req h1 hf hp
    have hupd := findRequest_update_self st idv "approved"
      (some ("Manually approved by " ++ toString a1)) t1 req hf
    have hfind1 : findRequest (adminResolve cfg st a1 .approve idv t1).1 idv
        = some { req with
                 status := "approved"
                 resolved_at := some t1
                 admin_note := some ("Manually approved by " ++ toString a1) } := by
      unfold findRequest at hupd ⊢
      rw [hreqs]
      exact hupd
    refine ⟨?_, ?_⟩
    · rw [hfind1, hf]
      intro hcontra
      have hstatus := congrArg (fun o => (Option.map Request.status o).getD "") hcontra
      simp only [Option.map_some', Option.getD_some, hp] at hstatus
      simp at hstatus
    · exact adminResolve_already cfg _ a2 d2 idv t2 _ h2 hfind1 (by simp)
  | reject =>
    have hreqs : ((adminResolve cfg st a1 .reject idv t1).1).requests
        = (updateRequestStatus st idv "rejected"
            (some ("Rejected by " ++ toString a1)) t1).requests :=
      adminResolve_requests_pending cfg st a1 .reject idv t1 req h1 hf hp
    have hupd := findRequest_update_self st idv "rejected"
      (some ("Rejected by " ++ toString a1)) t1 req hf
    have hfind1 : findRequest (adminResolve cfg st a1 .reject idv t1).1 idv
        = some { req with
                 status := "rejected"
                 resolved_at := some t1
                 admin_note := some ("Rejected by " ++ toString a1) } := by
      unfold findRequest at hupd ⊢
      rw [hreqs]
      exact hupd
    refine ⟨?_, ?_⟩
    · rw [hfind1, hf]
      intro hcontra
      have hstatus := congrArg (fun o => (Option.map Request.status o).getD "") hcontra
      simp only [Option.map_some', Option.getD_some, hp] at hstatus
      simp at hstatus
    · exact adminResolve_already cfg _ a2 d2 idv t2 _ h2 hfind1 (by simp)

/-- Witness for C1 at a concrete admin, pending deposit request and
clock values. -/
theorem resolve_twice_second_noop_witness :
    (isAdmin wCfg 7 = true ∧ isAdmin wCfg 7 = true ∧
      findRequest wSt "ABCD2345" = some wDepReq ∧ wDepReq.status = "pending") ∧
    (findRequest (adminResolve wCfg wSt 7 .approve "ABCD2345" 1).1 "ABCD2345"
        ≠ findRequest wSt "ABCD2345" ∧
      adminResolve wCfg (adminResolve wCfg wSt 7 .approve "ABCD2345" 1).1 7 .reject "ABCD2345" 2
        = ((adminResolve wCfg wSt 7 .approve "ABCD2345" 1).1, Reply.alreadyResolved)) :=
  ⟨⟨by decide, by decide, by decide, by decide⟩,
    resolve_twice_second_noop wCfg wSt 7 7 .approve .reject "ABCD2345" 1 2 wDepReq
      (by decide) (by decide) (by decide) (by decide)⟩

/-- C8: A cancel event at any point (any session, any flow, any step)
resets the session to `flow = none` and `data = {}` and leaves the
entire store — Users, Providers and Requests — unchanged, so no Request
row is created. -/
theorem cancel_resets_session_and_preserves_store (cfg : Cfg) (st : St)
    (s : Session) (fromId : Int) (now : Nat) :
    onAction cfg st s fromId ActEv.cancelFlow now
      = (st, { s with flow := none, data := emptyData }, Reply.cancelled) := by
  rfl

/-- C9: A non-admin invoking the approve/reject action performs no state
change at all: the store (every request's status, `resolved_at`,
`admin_note` and every user's balance) and the session are returned
unchanged, with only the admins-only notice produced. -/
theorem nonadmin_resolve_is_noop (cfg : Cfg) (st : St) (s : Session)
    (fromId : Int) (d : Decision) (idv : String) (now : Nat)
    (h : isAdmin cfg fromId = false) :
    onAction cfg st s fromId (ActEv.adminResolve d idv) now = (st, s, Reply.adminsOnly) := by
  unfold onAction adminResolve
  rw [h]
  rfl

/-- Witness for C9: identity 8 is not in the admin set `["7"]`. -/
theorem nonadmin_resolve_is_noop_witness :
    isAdmin wCfg 8 = false ∧
    onAction wCfg wSt { } 8 (ActEv.adminResolve Decision.approve "ABCD2345") 3
      = (wSt, { }, Reply.adminsOnly) :=
  ⟨by decide,
    nonadmin_resolve_is_noop wCfg wSt { } 8 Decision.approve "ABCD2345" 3 (by decide)⟩

theorem sweepFold_users (now : Nat) (L : List Request) :
    ∀ (st : St),
      (L.foldl (fun acc r => if jsTimeLe r.expires_at now then expireRow acc now r.id else acc) st).users
        = st.users := by
  induction L with
  | nil => intro st; rfl
  | cons x L ih =>
    intro st
    rw [List.foldl_cons, ih]
    by_cases ht : jsTimeLe x.expires_at now
    · rw [if_pos ht]; rfl
    · rw [if_neg ht]

theorem sweepFold_requests (now : Nat) (L : List Request) :
    ∀ (st : St),
      (L.foldl (fun acc r => if jsTimeLe r.expires_at now then expireRow acc now r.id else acc) st).requests
        = st.requests.map (fun r =>
            if L.any (fun x => jsTimeLe x.expires_at now && r.id = x.id)
            then { r with status := "expired", resolved_at := some now } else r) := by
  induction L with
  | nil => intro st; simp
  | cons x L ih =>
    intro st
    rw [List.foldl_cons, ih]
    by_cases ht : jsTimeLe x.expires_at now
    · rw [if_pos ht]
      have hreq : (expireRow st now x.id).requests
          = st.requests.map (fun r =>
              if r.id = x.id then { r with status := "expired", resolved_at := some now } else r) := rfl
      rw [hreq, List.map_map]
      apply List.map_congr_left
      intro r _
      by_cases hid : r.id = x.id
      · simp [hid, ht]
      · simp [hid, ht]
    · rw [if_neg ht]
      apply List.map_congr_left
      intro r _
      simp [ht]

theorem sweepTick_users (st : St) (now : Nat) : (sweepTick st now).users = st.users := by
  unfold sweepTick
  exact sweepFold_users now _ st

theorem sweepTick_requests (st : St) (now : Nat) :
    (sweepTick st now).requests
      = st.requests.map (fun r =>
          if (st.requests.filter (fun x => x.status = "pending" && (x.expires_at).isSome)).any
               (fun x => jsTimeLe x.expires_at now && r.id = x.id)
          then { r with status := "expired", resolved_at := some now } else r) := by
  unfold sweepTick
  exact sweepFold_requests now _ st

theorem jsTimeLe_isSome {o : Option Nat} {n : Nat} (h : jsTimeLe o n = true) : o.isSome := by
  cases o with
  | none => simp [jsTimeLe] at h
  | some e => rfl

theorem request_eq_of_same_id {st : St}
    (hN : (st.requests.map (fun r => r.id)).Nodup)
    {r q : Request} (hr : r ∈ st.requests) (hq : q ∈ st.requests)
    (hid : r.id = q.id) : r = q :=
  List.inj_on_of_nodup_map hN hr hq hid

theorem sweepTick_getElem (st : St) (now : Nat)
    (hN : (st.requests.map (fun r => r.id)).Nodup)
    (i : Nat) (r : Request) (hi : st.requests[i]? = some r) :
    (sweepTick st now).requests[i]?
      = some (if r.status = "pending" && jsTimeLe r.expires_at now
              then { r with status := "expired", resolved_at := some now } else r) := by
  rw [sweepTick_requests, List.getElem?_map, hi, Option.map_some']
  congr 1
  have hmem : r ∈ st.requests := List.getElem?_mem hi
  by_cases hc : (r.status = "pending" && jsTimeLe r.expires_at now) = true
  · have hp : r.status = "pending" := by
      have := (Bool.and_eq_true _ _).mp hc
      exact of_decide_eq_true this.1
    have hti : jsTimeLe r.expires_at now = true := ((Bool.and_eq_true _ _).mp hc).2
    have hfil : r ∈ st.requests.filter (fun x => x.status = "pending" && (x.expires_at).isSome) := by
      rw [List.mem_filter]
      refine ⟨hmem, ?_⟩
      simp [hp, jsTimeLe_isSome hti]
    have hany : (st.requests.filter (fun x => x.status = "pending" && (x.expires_at).isSome)).any
        (fun x => jsTimeLe x.expires_at now && r.id = x.id) = true := by
      apply List.any_eq_true.mpr
      exact ⟨r, hfil, by simp [hti]⟩
    rw [if_pos hany, if_pos hc]
  · have hany : (st.requests.filter (fun x => x.status = "pending" && (x.expires_at).isSome)).any
        (fun x => jsTimeLe x.expires_at now && r.id = x.id) = false := by
      apply Bool.eq_false_iff.mpr
      intro habs
      obtain ⟨x, hxfil, hxpred⟩ := List.any_eq_true.mp habs
      obtain ⟨hxmem, hxcond⟩ := List.mem_filter.mp hxfil
      have hxid : r.id = x.id := of_decide_eq_true ((Bool.and_eq_true _ _).mp hxpred).2
      have hxr : r = x := request_eq_of_same_id hN hmem hxmem hxid
      apply hc
      subst hxr
      have hxp : r.status = "pending" := of_decide_eq_true ((Bool.and_eq_true _ _).mp hxcond).1
      have hxt : jsTimeLe r.expires_at now = true := ((Bool.and_eq_true _ _).mp hxpred).1
      simp [hxp, hxt]
    rw [if_neg (by simp [hany]), if_neg (by simp [hc])]

theorem sweepTick_ids (st : St) (now : Nat) :
    (sweepTick st now).requests.map (fun r => r.id) = st.requests.map (fun r => r.id) := by
  rw [sweepTick_requests, List.map_map]
  apply List.map_congr_left
  intro r _
  simp only [Function.comp_apply]
  split <;> rfl

/-- C4: On a sweeper tick, every pending request whose non-null
`expires_at` has passed is transitioned to `expired` with
`resolved_at = now`; a request with null `expires_at` is never touched;
an already-expired request is not modified; and a row expired by one
tick is left exactly as that tick wrote it by any later tick. -/
theorem sweeper_expires_correctly (st : St) (now : Nat)
    (hN : (st.requests.map (fun r => r.id)).Nodup) :
    (∀ (i : Nat) (r : Request) (e : Nat), st.requests[i]? = some r → r.status = "pending" →
        r.expires_at = some e → e ≤ now →
        (sweepTick st now).requests[i]?
          = some { r with status := "expired", resolved_at := some now }) ∧
    (∀ (i : Nat) (r : Request), st.requests[i]? = some r → r.expires_at = none →
        (sweepTick st now).requests[i]? = some r) ∧
    (∀ (i : Nat) (r : Request), st.requests[i]? = some r → r.status = "expired" →
        (sweepTick st now).requests[i]? = some r) ∧
    (∀ (i : Nat) (r : Request) (e now2 : Nat), st.requests[i]? = some r → r.status = "pending" →
        r.expires_at = some e → e ≤ now →
        (sweepTick (sweepTick st now) now2).requests[i]?
          = some { r with status := "expired", resolved_at := some now }) := by
  refine ⟨?_, ?_, ?_, ?_⟩
  · intro i r e hi hp he hle
    rw [sweepTick_getElem st now hN i r hi]
    rw [if_pos (by simp [hp, he, jsTimeLe, hle])]
  · intro i r hi hnone
    rw [sweepTick_getElem st now hN i r hi]
    rw [if_neg (by simp [hnone, jsTimeLe])]
  · intro i r hi hexp
    rw [sweepTick_getElem st now hN i r hi]
    rw [if_neg (by simp [hexp])]
  · intro i r e now2 hi hp he hle
    have h1 : (sweepTick st now).requests[i]?
        = some { r with status := "expired", resolved_at := some now } := by
      rw [sweepTick_getElem st now hN i r hi]
      rw [if_pos (by simp [hp, he, jsTimeLe, hle])]
    have hN2 : ((sweepTick st now).requests.map (fun r => r.id)).Nodup := by
      rw [sweepTick_ids]
      exact hN
    rw [sweepTick_getElem (sweepTick st now) now2 hN2 i _ h1]
    rw [if_neg (by simp)]

/-- Witness for C4 on a one-request store whose pending deposit is
overdue at `now = 300000`. -/
theorem sweeper_expires_correctly_witness :
    ((wSt.requests.map (fun r => r.id)).Nodup) ∧
    ((∀ (i : Nat) (r : Request) (e : Nat), wSt.requests[i]? = some r → r.status = "pending" →
        r.expires_at = some e → e ≤ 300000 →
        (sweepTick wSt 300000).requests[i]?
          = some { r with status := "expired", resolved_at := some 300000 }) ∧
    (∀ (i : Nat) (r : Request), wSt.requests[i]? = some r → r.expires_at = none →
        (sweepTick wSt 300000).requests[i]? = some r) ∧
    (∀ (i : Nat) (r : Request), wSt.requests[i]? = some r → r.status = "expired" →
        (sweepTick wSt 300000).requests[i]? = some r) ∧
    (∀ (i : Nat) (r : Request) (e now2 : Nat), wSt.requests[i]? = some r → r.status = "pending" →
        r.expires_at = some e → e ≤ 300000 →
        (sweepTick (sweepTick wSt 300000) now2).requests[i]?
          = some { r with status := "expired", resolved_at := some 300000 })) :=
  ⟨by decide, sweeper_expires_correctly wSt 300000 (by decide)⟩

theorem adminResolve_cases (cfg : Cfg) (st : St) (a : Int) (d : Decision)
    (idv : String) (t : Nat) :
    ((adminResolve cfg st a d idv t).1).requests = st.requests ∨
    ∃ req, findRequest st idv = some req ∧ req.status = "pending" ∧
      ((adminResolve cfg st a d idv t).1).requests
        = st.requests.map (fun r =>
            if r.id = idv then
              { r with
                status := (match d with | .approve => "approved" | .reject => "rejected")
                resolved_at := some t
                admin_note := some ((match d with
                  | .approve => "Manually approved by "
                  | .reject => "Rejected by ") ++ toString a) }
            else r) := by
  by_cases h1 : isAdmin cfg a = true
  · cases hfr : findRequest st idv with
    | none =>
      left
      simp [adminResolve, h1, hfr]
    | some req =>
      by_cases hp : req.status = "pending"
      · right
        exact ⟨req, rfl, hp, (adminResolve_requests_pending cfg st a d idv t req h1 hfr hp).trans rfl⟩
      · left
        rw [adminResolve_already cfg st a d idv t req h1 hfr hp]
  · left
    have hb : isAdmin cfg a = false := Bool.eq_false_iff.mpr h1
    simp [adminResolve, hb]

theorem adminResolve_getElem (cfg : Cfg) (st : St) (a : Int) (d : Decision)
    (idv : String) (t : Nat)
    (hN : (st.requests.map (fun r => r.id)).Nodup)
    (i : Nat) (r : Request) (hi : st.requests[i]? = some r) :
    ∃ r2, ((adminResolve cfg st a d idv t).1).requests[i]? = some r2 ∧
      (r2 = r ∨ (r.status = "pending" ∧ (r2.status = "approved" ∨ r2.status = "rejected"))) := by
  rcases adminResolve_cases cfg st a d idv t with h | ⟨req, hfr, hp, h⟩
  · exact ⟨r, by rw [h, hi], Or.inl rfl⟩
  · rw [h, List.getElem?_map, hi, Option.map_some']
    by_cases hid : r.id = idv
    · have hreq : r = req :=
        request_eq_of_same_id hN (List.getElem?_mem hi) (findRequest_mem hfr)
          (by rw [hid, findRequest_id hfr])
    
      refine ⟨_, rfl, Or.inr ⟨by rw [hreq]; exact hp, ?_⟩⟩
      cases d with
      | approve => rw [if_pos hid]; exact Or.inl rfl
      | reject => rw [if_pos hid]; exact Or.inr rfl
    · rw [if_neg hid]
      exact ⟨r, rfl, Or.inl rfl⟩

/-- C2: status transitions only ever leave `pending`.  For both the
admin approve/reject action (any actor, any decision, any target id)
and the sweeper tick: a row whose status is not `pending` is returned
bit-for-bit unchanged, and a pending row either stays unchanged or
moves to `approved`/`rejected` (resolve) resp. `expired` (sweep). -/
theorem status_transition_invariant (cfg : Cfg) (st : St) (a : Int) (d : Decision)
    (idv : String) (t now : Nat)
    (hN : (st.requests.map (fun r => r.id)).Nodup) :
    (∀ (i : Nat) (r : Request), st.requests[i]? = some r → r.status ≠ "pending" →
        ((adminResolve cfg st a d idv t).1).requests[i]? = some r) ∧
    (∀ (i : Nat) (r : Request), st.requests[i]? = some r → r.status = "pending" →
        ∃ r2, ((adminResolve cfg st a d idv t).1).requests[i]? = some r2 ∧
          (r2 = r ∨ r2.status = "approved" ∨ r2.status = "rejected")) ∧
    (∀ (i : Nat) (r : Request), st.requests[i]? = some r → r.status ≠ "pending" →
        (sweepTick st now).requests[i]? = some r) ∧
    (∀ (i : Nat) (r : Request), st.requests[i]? = some r → r.status = "pending" →
        ∃ r2, (sweepTick st now).requests[i]? = some r2 ∧
          (r2 = r ∨ r2.status = "expired")) := by
  refine ⟨?_, ?_, ?_, ?_⟩
  · intro i r hi hrs
    obtain ⟨r2, h2, hd⟩ := adminResolve_getElem cfg st a d idv t hN i r hi
    rcases hd with rfl | ⟨hp, _⟩
    · exact h2
    · exact absurd hp hrs
  · intro i r hi _
    obtain ⟨r2, h2, hd⟩ := adminResolve_getElem cfg st a d idv t hN i r hi
    rcases hd with rfl | ⟨_, hs⟩
    · exact ⟨r2, h2, Or.inl rfl⟩
    · exact ⟨r2, h2, Or.inr hs⟩
  · intro i r hi hrs
    rw [sweepTick_getElem st now hN i r hi]
    rw [if_neg (by simp [hrs])]
  · intro i r hi hp
    rw [sweepTick_getElem st now hN i r hi]
    by_cases hc : (r.status = "pending" && jsTimeLe r.expires_at now) = true
    · rw [if_pos hc]
      exact ⟨_, rfl, Or.inr rfl⟩
    · rw [if_neg hc]
      exact ⟨r, rfl, Or.inl rfl⟩

/-- Witness for C2 on the concrete one-admin, one-request store. -/
theorem status_transition_invariant_witness :
    ((wSt.requests.map (fun r => r.id)).Nodup) ∧
    ((∀ (i : Nat) (r : Request), wSt.requests[i]? = some r → r.status ≠ "pending" →
        ((adminResolve wCfg wSt 7 Decision.approve "ABCD2345" 1).1).requests[i]? = some r) ∧
    (∀ (i : Nat) (r : Request), wSt.requests[i]? = some r → r.status = "pending" →
        ∃ r2, ((adminResolve wCfg wSt 7 Decision.approve "ABCD2345" 1).1).requests[i]? = some r2 ∧
          (r2 = r ∨ r2.status = "approved" ∨ r2.status = "rejected")) ∧
    (∀ (i : Nat) (r : Request), wSt.requests[i]? = some r → r.status ≠ "pending" →
        (sweepTick wSt 2).requests[i]? = some r) ∧
    (∀ (i : Nat) (r : Request), wSt.requests[i]? = some r → r.status = "pending" →
        ∃ r2, (sweepTick wSt 2).requests[i]? = some r2 ∧
          (r2 = r ∨ r2.status = "expired"))) :=
  ⟨by decide, status_transition_invariant wCfg wSt 7 Decision.approve "ABCD2345" 1 2 (by decide)⟩

theorem updateRequestStatus_users (st : St) (idv sx : String) (n : Option String) (t : Nat) :
    (updateRequestStatus st idv sx n t).users = st.users := rfl

theorem findUser_creditUser (st : St) (uid : Int) (amt : Int) (u : UserRow)
    (hu : findUser st uid = some u) :
    findUser (creditUser st uid amt) uid
      = some { u with balance := some (jsOr0 u.balance + amt) } := by
  have hu2 : st.users.find? (fun v => v.id = uid) = some u := hu
  have hid : u.id = uid := by simpa using List.find?_some hu2
  unfold creditUser
  simp only [hu]
  unfold findUser
  rw [List.find?_map]
  have hcomp :
      ((fun v : UserRow => decide (v.id = uid)) ∘
        (fun v : UserRow => if v.id = uid then { v with balance := some (jsOr0 u.balance + amt) } else v))
      = (fun v : UserRow => decide (v.id = uid)) := by
    funext v
    by_cases h : v.id = uid <;> simp [h]
  rw [hcomp, hu2]
  simp [hid]

theorem adminResolve_find_self_approve (cfg : Cfg) (st : St) (a : Int)
    (idv : String) (t : Nat) (req : Request)
    (h1 : isAdmin cfg a = true) (hf : findRequest st idv = some req)
    (hp : req.status = "pending") :
    findRequest (adminResolve cfg st a .approve idv t).1 idv
      = some { req with
               status := "approved"
               resolved_at := some t
               admin_note := some ("Manually approved by " ++ toString a) } := by
  have hreqs : ((adminResolve cfg st a .approve idv t).1).requests
      = (updateRequestStatus st idv "approved"
          (some ("Manually approved by " ++ toString a)) t).requests :=
    adminResolve_requests_pending cfg st a .approve idv t req h1 hf hp
  have hupd := findRequest_update_self st idv "approved"
    (some ("Manually approved by " ++ toString a)) t req hf
  unfold findRequest at hupd ⊢
  rw [hreqs]
  exact hupd

/-- The result state of the approve action on a pending deposit whose
effective amount passes the `amount && amount > 0` guard. -/
theorem adminResolve_approve_credit_state (cfg : Cfg) (st : St) (a : Int)
    (idv : String) (t : Nat) (req : Request)
    (h1 : isAdmin cfg a = true) (hf : findRequest st idv = some req)
    (hp : req.status = "pending") (ht : req.type = "deposit")
    (hguard : (truthy (effAmount req.amount (safeParse (reqDetailsParsed req))) &&
        jsGtZero (effAmount req.amount (safeParse (reqDetailsParsed req)))) = true) :
    (adminResolve cfg st a .approve idv t).1
      = creditUser (updateRequestStatus st idv "approved"
          (some ("Manually approved by " ++ toString a)) t) req.user_id
          (creditValue (effAmount req.amount (safeParse (reqDetailsParsed req)))) := by
  unfold adminResolve
  rw [h1, hf]
  simp only [Bool.not_true, Bool.false_eq_true, if_false, hp, ne_eq, not_true_eq_false,
    ite_false, ht, ite_true, hguard]

/-- The result state of the approve action on a pending deposit whose
effective amount fails the guard: no credit happens. -/
theorem adminResolve_approve_nocredit_state (cfg : Cfg) (st : St) (a : Int)
    (idv : String) (t : Nat) (req : Request)
    (h1 : isAdmin cfg a = true) (hf : findRequest st idv = some req)
    (hp : req.status = "pending") (ht : req.type = "deposit")
    (hguard : (truthy (effAmount req.amount (safeParse (reqDetailsParsed req))) &&
        jsGtZero (effAmount req.amount (safeParse (reqDetailsParsed req)))) = false) :
    (adminResolve cfg st a .approve idv t).1
      = updateRequestStatus st idv "approved"
          (some ("Manually approved by " ++ toString a)) t := by
  unfold adminResolve
  rw [h1, hf]
  simp only [Bool.not_true, Bool.false_eq_true, if_false, hp, ne_eq, not_true_eq_false,
    ite_false, ht, ite_true, hguard]

/-- C3 counterexample: approving a pending deposit whose `amount` column
is NULL does NOT always leave the balance unchanged — the code falls
back to `details.amount`, so a stored details payload of
`\x7b"amount":500\x7d` credits 500 to the user (balance goes 0 → 500),
while the request row has `amount = none`. -/
theorem approve_absent_amount_credits_fallback :
    cxReq.amount = none ∧
    cxSt.users.map (fun u => u.balance) = [some 0] ∧
    ((adminResolve wCfg cxSt 7 Decision.approve "EFGH6789" 5).1).users.map (fun u => u.balance)
      = [some 500] := by
  refine ⟨rfl, rfl, ?_⟩
  decide

/-- C3 (amended): approving a pending deposit as an authorized admin
sets `status = approved`, `resolved_at = now` and `admin_note`; when the
`amount` column holds a positive value, the owning user's balance is
incremented by exactly that amount; when `amount` is absent or zero AND
the stored details payload carries no truthy positive `amount` member
(the code's fallback), the users table is unchanged. -/
theorem approve_deposit_credits_amount (cfg : Cfg) (st : St) (a : Int)
    (idv : String) (now : Nat) (req : Request) (u : UserRow)
    (ha : isAdmin cfg a = true) (hf : findRequest st idv = some req)
    (hp : req.status = "pending") (ht : req.type = "deposit")
    (hu : findUser st req.user_id = some u) :
    (findRequest (adminResolve cfg st a .approve idv now).1 idv
      = some { req with
               status := "approved"
               resolved_at := some now
               admin_note := some ("Manually approved by " ++ toString a) }) ∧
    (∀ amt : Int, req.amount = some amt → 0 < amt →
        findUser (adminResolve cfg st a .approve idv now).1 req.user_id
          = some { u with balance := some (jsOr0 u.balance + amt) }) ∧
    ((req.amount = none ∨ req.amount = some 0) →
      (∀ v, fieldVal (safeParse (reqDetailsParsed req)) "amount" = some v →
          (truthy v && jsGtZero v) = false) →
      (adminResolve cfg st a .approve idv now).1.users = st.users) := by
  refine ⟨adminResolve_find_self_approve cfg st a idv now req ha hf hp, ?_, ?_⟩
  · intro amt hamt hpos
    have hne : (amt != 0) = true := by
      simp only [bne_iff_ne, ne_eq]
      exact fun h => absurd (h ▸ hpos) (lt_irrefl 0)
    have heff : effAmount req.amount (safeParse (reqDetailsParsed req)) = .num amt := by
      rw [hamt]
      unfold effAmount optIntToJson jsOrJson
      simp [truthy, hne]
    have hguard : (truthy (effAmount req.amount (safeParse (reqDetailsParsed req))) &&
        jsGtZero (effAmount req.amount (safeParse (reqDetailsParsed req)))) = true := by
      rw [heff]
      simp [truthy, jsGtZero, toNumber, hne, hpos]
    have hres := adminResolve_approve_credit_state cfg st a idv now req ha hf hp ht hguard
    rw [hres, heff]
    have hcv : creditValue (Json.num amt) = amt := rfl
    rw [hcv]
    have hu1 : findUser (updateRequestStatus st idv "approved"
        (some ("Manually approved by " ++ toString a)) now) req.user_id = some u := hu
    exact findUser_creditUser _ req.user_id amt u hu1
  · intro hz hbenign
    have hguard : (truthy (effAmount req.amount (safeParse (reqDetailsParsed req))) &&
        jsGtZero (effAmount req.amount (safeParse (reqDetailsParsed req)))) = false := by
      have hbase : effAmount req.amount (safeParse (reqDetailsParsed req))
          = jsOrJson ((fieldVal (safeParse (reqDetailsParsed req)) "amount").getD .null) (.num 0) := by
        rcases hz with hz | hz <;>
          rw [hz] <;>
          unfold effAmount optIntToJson jsOrJson <;>
          simp [truthy]
      rw [hbase]
      cases hfv : fieldVal (safeParse (reqDetailsParsed req)) "amount" with
      | none =>
        unfold jsOrJson
        simp [truthy, jsGtZero, toNumber]
      | some v =>
        have hb := hbenign v hfv
        unfold jsOrJson
        simp only [Option.getD_some]
        by_cases htv : truthy v = true
        · rw [if_pos htv]
          exact hb
        · rw [if_neg htv]
          rfl
    have hres := adminResolve_approve_nocredit_state cfg st a idv now req ha hf hp ht hguard
    rw [hres]
    exact updateRequestStatus_users st idv "approved" _ now

/-- Witness for C3 (amended): approving the 10000-deposit of a
zero-balance user yields balance 10000, the claim's own example. -/
theorem approve_deposit_credits_amount_witness :
    (isAdmin wCfg 7 = true ∧ findRequest wSt "ABCD2345" = some wDepReq ∧
      wDepReq.status = "pending" ∧ wDepReq.type = "deposit" ∧
      findUser wSt wDepReq.user_id = some wUser) ∧
    ((findRequest (adminResolve wCfg wSt 7 .approve "ABCD2345" 4).1 "ABCD2345"
      = some { wDepReq with
               status := "approved"
               resolved_at := some 4
               admin_note := some ("Manually approved by " ++ toString (7 : Int)) }) ∧
    (∀ amt : Int, wDepReq.amount = some amt → 0 < amt →
        findUser (adminResolve wCfg wSt 7 .approve "ABCD2345" 4).1 wDepReq.user_id
          = some { wUser with balance := some (jsOr0 wUser.balance + amt) }) ∧
    ((wDepReq.amount = none ∨ wDepReq.amount = some 0) →
      (∀ v, fieldVal (safeParse (reqDetailsParsed wDepReq)) "amount" = some v →
          (truthy v && jsGtZero v) = false) →
      (adminResolve wCfg wSt 7 .approve "ABCD2345" 4).1.users = wSt.users)) :=
  ⟨⟨by decide, by decide, by decide, by decide, by decide⟩,
    approve_deposit_credits_amount wCfg wSt 7 "ABCD2345" 4 wDepReq wUser
      (by decide) (by decide) (by decide) (by decide) (by decide)⟩

theorem onText_deposit_shape (cfg : Cfg) (st : St) (s : Session) (fromId : Int)
    (msgText : String) (now : Nat) (freshId : String) (randNum : Nat)
    (hm : s.adminMode = none) (hf : s.flow = some "deposit") :
    onText cfg st s fromId msgText now freshId randNum
      = (if s.data.step = some "deposit_userid" then
           (st,
            { s with data := { s.data with
                userGameId := some (jsTrim msgText), step := some "deposit_amount" } },
            Reply.promptAmount)
         else if s.data.step = some "deposit_amount" then
           depositAmountText cfg st s (jsTrim msgText) now
         else (st, s, Reply.passthrough)) := by
  unfold onText
  rw [hm, hf]
  simp [optStrTruthy]

theorem onText_withdraw_shape (cfg : Cfg) (st : St) (s : Session) (fromId : Int)
    (msgText : String) (now : Nat) (freshId : String) (randNum : Nat)
    (hm : s.adminMode = none) (hf : s.flow = some "withdraw") :
    onText cfg st s fromId msgText now freshId randNum
      = (if s.data.step = some "withdraw_userid" then
           (st,
            { s with data := { s.data with
                userGameId := some (jsTrim msgText), step := some "withdraw_code" } },
            Reply.promptCode)
         else if s.data.step = some "withdraw_code" then
           withdrawCodeText st s (jsTrim msgText)
         else if s.data.step = some "withdraw_card" then
           withdrawCardText st s fromId (jsTrim msgText) freshId now
         else (st, s, Reply.passthrough)) := by
  unfold onText
  rw [hm, hf]
  simp [optStrTruthy]

/-- C5: at the deposit `awaiting_amount` step, an input that does not
parse (per JS `parseInt`) to an integer at or above the configured
minimum re-prompts with the store, the session (hence the step) and the
session data fully unchanged; a parsing input at or above the minimum
advances to the proof step and fixes
`expires_at = now + timeout minutes` in the session at that moment; the
photo handler later creates the request with exactly the session-stored
`expires_at`, not one computed at photo time. -/
theorem deposit_amount_step_behavior (cfg : Cfg) (st : St) (s : Session)
    (fromId : Int) (msgText : String) (now : Nat) (freshId : String) (randNum : Nat)
    (hm : s.adminMode = none) (hf : s.flow = some "deposit")
    (hs : s.data.step = some "deposit_amount") :
    ((parseIntJS (jsTrim msgText) = none ∨
        ∃ n : Int, parseIntJS (jsTrim msgText) = some n ∧ n < cfg.minDeposit) →
      onText cfg st s fromId msgText now freshId randNum = (st, s, Reply.badAmount)) ∧
    (∀ n : Int, parseIntJS (jsTrim msgText) = some n → cfg.minDeposit ≤ n →
      onText cfg st s fromId msgText now freshId randNum
        = (st,
           { s with data := { s.data with
               amount := some n
               step := some "deposit_wait_check"
               expiresAt := some (now + cfg.checkTimeoutMin * 60000) } },
           Reply.promptPayment)) ∧
    (∀ (s2 : Session) (uid : Int) (fileId freshId2 : String) (now2 E : Nat),
      s2.flow = some "deposit" → s2.data.step = some "deposit_wait_check" →
      s2.data.expiresAt = some E →
      (onPhoto cfg st s2 uid fileId now2 freshId2).1.requests.map (fun r => r.expires_at)
        = st.requests.map (fun r => r.expires_at) ++ [some E]) := by
  have hred : onText cfg st s fromId msgText now freshId randNum
      = depositAmountText cfg st s (jsTrim msgText) now := by
    rw [onText_deposit_shape cfg st s fromId msgText now freshId randNum hm hf, hs]
    simp
  refine ⟨?_, ?_, ?_⟩
  · intro hbad
    rw [hred]
    unfold depositAmountText
    rcases hbad with hnone | ⟨n, hn, hlt⟩
    · rw [hnone]
    · rw [hn]
      simp only []
      rw [if_pos hlt]
  · intro n hn hge
    rw [hred]
    unfold depositAmountText
    rw [hn]
    simp only []
    rw [if_neg (not_lt.mpr hge)]
  · intro s2 uid fileId freshId2 now2 E hf2 hs2 he2
    unfold onPhoto
    rw [hf2, hs2, he2]
    simp [createRequest]

/-- Witness for C5: the amount step of a concrete deposit session,
fed the input "abc" with minimum 5000. -/
theorem deposit_amount_step_behavior_witness :
    (wAmountSess.adminMode = none ∧ wAmountSess.flow = some "deposit" ∧
      wAmountSess.data.step = some "deposit_amount") ∧
    (((parseIntJS (jsTrim "abc") = none ∨
        ∃ n : Int, parseIntJS (jsTrim "abc") = some n ∧ n < wCfg.minDeposit) →
      onText wCfg wSt wAmountSess 9 "abc" 1000 "QQQQ2222" 0
        = (wSt, wAmountSess, Reply.badAmount)) ∧
    (∀ n : Int, parseIntJS (jsTrim "abc") = some n → wCfg.minDeposit ≤ n →
      onText wCfg wSt wAmountSess 9 "abc" 1000 "QQQQ2222" 0
        = (wSt,
           { wAmountSess with data := { wAmountSess.data with
               amount := some n
               step := some "deposit_wait_check"
               expiresAt := some (1000 + wCfg.checkTimeoutMin * 60000) } },
           Reply.promptPayment)) ∧
    (∀ (s2 : Session) (uid : Int) (fileId freshId2 : String) (now2 E : Nat),
      s2.flow = some "deposit" → s2.data.step = some "deposit_wait_check" →
      s2.data.expiresAt = some E →
      (onPhoto wCfg wSt s2 uid fileId now2 freshId2).1.requests.map (fun r => r.expires_at)
        = wSt.requests.map (fun r => r.expires_at) ++ [some E])) :=
  ⟨⟨rfl, rfl, rfl⟩,
    deposit_amount_step_behavior wCfg wSt wAmountSess 9 "abc" 1000 "QQQQ2222" 0 rfl rfl rfl⟩

/-- C6: at the withdraw `awaiting_code` step every input is first
trimmed then uppercased, and it is accepted — storing the normalized
code and advancing to the card step — if and only if the normalized
input matches `[A-Z0-9]` exactly four times; otherwise the handler
re-prompts leaving store and session untouched. -/
theorem withdraw_code_step_behavior (cfg : Cfg) (st : St) (s : Session)
    (fromId : Int) (msgText : String) (now : Nat) (freshId : String) (randNum : Nat)
    (hm : s.adminMode = none) (hf : s.flow = some "withdraw")
    (hs : s.data.step = some "withdraw_code") :
    (validateSecretCode (jsUpper (jsTrim msgText)) = true →
      onText cfg st s fromId msgText now freshId randNum
        = (st,
           { s with data := { s.data with
               code := some (jsUpper (jsTrim msgText))
               step := some "withdraw_card" } },
           Reply.promptCard)) ∧
    (validateSecretCode (jsUpper (jsTrim msgText)) = false →
      onText cfg st s fromId msgText now freshId randNum = (st, s, Reply.badCode)) := by
  have hred : onText cfg st s fromId msgText now freshId randNum
      = withdrawCodeText st s (jsTrim msgText) := by
    rw [onText_withdraw_shape cfg st s fromId msgText now freshId randNum hm hf, hs]
    simp
  constructor
  · intro hv
    rw [hred]
    unfold withdrawCodeText
    simp [hv]
  · intro hv
    rw [hred]
    unfold withdrawCodeText
    simp [hv]

/-- Witness for C6: "a9k3" normalizes to "A9K3" and is accepted; "a9k"
fails the shape check and re-prompts. -/
theorem withdraw_code_step_behavior_witness :
    (wCodeSess.adminMode = none ∧ wCodeSess.flow = some "withdraw" ∧
      wCodeSess.data.step = some "withdraw_code") ∧
    jsUpper (jsTrim "a9k3") = "A9K3" ∧
    validateSecretCode "A9K3" = true ∧
    validateSecretCode (jsUpper (jsTrim "a9k")) = false ∧
    (onText wCfg wSt wCodeSess 9 "a9k3" 0 "QQQQ2222" 0
      = (wSt,
         { wCodeSess with data := { wCodeSess.data with
             code := some (jsUpper (jsTrim "a9k3"))
             step := some "withdraw_card" } },
         Reply.promptCard)) ∧
    (onText wCfg wSt wCodeSess 9 "a9k" 0 "QQQQ2222" 0 = (wSt, wCodeSess, Reply.badCode)) :=
  ⟨⟨rfl, rfl, rfl⟩, by decide, by decide, by decide,
    (withdraw_code_step_behavior wCfg wSt wCodeSess 9 "a9k3" 0 "QQQQ2222" 0
      rfl rfl rfl).1 (by decide),
    (withdraw_code_step_behavior wCfg wSt wCodeSess 9 "a9k" 0 "QQQQ2222" 0
      rfl rfl rfl).2 (by decide)⟩

/-- C7: the withdraw flow never consults the stored `secret_code`.  For
two stores that agree on everything except the users' `secret_code`
column, any text event in a withdraw-flow session yields the same
session, the same reply and the same requests table (and neither run
touches the users table); when the card step completes, the created
request records the session's typed code in its `details`, with no
cross-check against the stored code. -/
theorem withdraw_flow_ignores_stored_secret (cfg : Cfg) (U1 U2 : List UserRow)
    (P : List Provider) (R : List Request) (s : Session) (fromId : Int)
    (msgText : String) (now : Nat) (freshId : String) (randNum : Nat)
    (_hU : U1.map (fun u => (u.id, u.username, u.balance))
        = U2.map (fun u => (u.id, u.username, u.balance)))
    (hm : s.adminMode = none) (hf : s.flow = some "withdraw") :
    ((onText cfg { users := U1, providers := P, requests := R } s fromId msgText now freshId randNum).2
      = (onText cfg { users := U2, providers := P, requests := R } s fromId msgText now freshId randNum).2) ∧
    ((onText cfg { users := U1, providers := P, requests := R } s fromId msgText now freshId randNum).1.requests
      = (onText cfg { users := U2, providers := P, requests := R } s fromId msgText now freshId randNum).1.requests) ∧
    ((onText cfg { users := U1, providers := P, requests := R } s fromId msgText now freshId randNum).1.users = U1) ∧
    ((onText cfg { users := U2, providers := P, requests := R } s fromId msgText now freshId randNum).1.users = U2) ∧
    (s.data.step = some "withdraw_card" → cardOk (stripWS (jsTrim msgText)) = true →
      (onText cfg { users := U1, providers := P, requests := R } s fromId msgText now freshId randNum).1.requests
        = R ++ [{ id := freshId
                  user_id := fromId
                  provider_id := s.data.providerId
                  provider_name := s.data.providerName
                  type := "withdraw"
                  amount := none
                  details := some (jsonStringify (mkObj
                    [("userGameId", (s.data.userGameId).map Json.str),
                     ("code", (s.data.code).map Json.str),
                     ("card", some (Json.str (stripWS (jsTrim msgText))))]))
                  status := "pending"
                  created_at := now
                  expires_at := none
                  resolved_at := none
                  admin_note := none }]) := by
  rw [onText_withdraw_shape cfg { users := U1, providers := P, requests := R } s fromId
        msgText now freshId randNum hm hf,
      onText_withdraw_shape cfg { users := U2, providers := P, requests := R } s fromId
        msgText now freshId randNum hm hf]
  by_cases h1 : s.data.step = some "withdraw_userid"
  · refine ⟨?_, ?_, ?_, ?_, ?_⟩ <;> simp [h1]
  · by_cases h2 : s.data.step = some "withdraw_code"
    · unfold withdrawCodeText
      by_cases hv : validateSecretCode (jsUpper (jsTrim msgText)) = true
      · refine ⟨?_, ?_, ?_, ?_, ?_⟩ <;> simp [h1, h2, hv]
      · have hv2 : validateSecretCode (jsUpper (jsTrim msgText)) = false :=
          Bool.eq_false_iff.mpr hv
        refine ⟨?_, ?_, ?_, ?_, ?_⟩ <;> simp [h1, h2, hv2]
    · by_cases h3 : s.data.step = some "withdraw_card"
      · unfold withdrawCardText
        by_cases hcard : cardOk (stripWS (jsTrim msgText)) = true
        · refine ⟨?_, ?_, ?_, ?_, ?_⟩ <;>
            simp [h1, h2, h3, hcard, createRequest, jsOrNullInt, jsOrStr]
        · have hcard2 : cardOk (stripWS (jsTrim msgText)) = false :=
            Bool.eq_false_iff.mpr hcard
          refine ⟨?_, ?_, ?_, ?_, ?_⟩ <;> simp [h1, h2, h3, hcard2]
      · refine ⟨?_, ?_, ?_, ?_, ?_⟩ <;> simp [h1, h2, h3]

/-- Witness for C7: two one-user stores whose only difference is the
stored secret code ("AB12" vs "ZZ99"), fed the same card number at the
card step. -/
theorem withdraw_flow_ignores_stored_secret_witness :
    ([wUser].map (fun u => (u.id, u.username, u.balance))
        = [wUserB].map (fun u => (u.id, u.username, u.balance)) ∧
      wWithdrawSess.adminMode = none ∧ wWithdrawSess.flow = some "withdraw") ∧
    (((onText wCfg { users := [wUser], providers := [wProv], requests := [wDepReq] }
          wWithdrawSess 9 "8600123412341234" 7 "WDWD2345" 0).2
      = (onText wCfg { users := [wUserB], providers := [wProv], requests := [wDepReq] }
          wWithdrawSess 9 "8600123412341234" 7 "WDWD2345" 0).2) ∧
    ((onText wCfg { users := [wUser], providers := [wProv], requests := [wDepReq] }
          wWithdrawSess 9 "8600123412341234" 7 "WDWD2345" 0).1.requests
      = (onText wCfg { users := [wUserB], providers := [wProv], requests := [wDepReq] }
          wWithdrawSess 9 "8600123412341234" 7 "WDWD2345" 0).1.requests) ∧
    ((onText wCfg { users := [wUser], providers := [wProv], requests := [wDepReq] }
          wWithdrawSess 9 "8600123412341234" 7 "WDWD2345" 0).1.users = [wUser]) ∧
    ((onText wCfg { users := [wUserB], providers := [wProv], requests := [wDepReq] }
          wWithdrawSess 9 "8600123412341234" 7 "WDWD2345" 0).1.users = [wUserB]) ∧
    (wWithdrawSess.data.step = some "withdraw_card" →
      cardOk (stripWS (jsTrim "8600123412341234")) = true →
      (onText wCfg { users := [wUser], providers := [wProv], requests := [wDepReq] }
          wWithdrawSess 9 "8600123412341234" 7 "WDWD2345" 0).1.requests
        = [wDepReq] ++
          [{ id := "WDWD2345"
             user_id := 9
             provider_id := wWithdrawSess.data.providerId
             provider_name := wWithdrawSess.data.providerName
             type := "withdraw"
             amount := none
             details := some (jsonStringify (mkObj
               [("userGameId", (wWithdrawSess.data.userGameId).map Json.str),
                ("code", (wWithdrawSess.data.code).map Json.str),
                ("card", some (Json.str (stripWS (jsTrim "8600123412341234"))))]))
             status := "pending"
             created_at := 7
             expires_at := none
             resolved_at := none
             admin_note := none }])) :=
  ⟨⟨by decide, rfl, rfl⟩,
    withdraw_flow_ignores_stored_secret wCfg [wUser] [wUserB] [wProv] [wDepReq]
      wWithdrawSess 9 "8600123412341234" 7 "WDWD2345" 0 (by decide) rfl rfl⟩

/-- C10 counterexample: `safeParse` of the stored string "5" does not
return an object — the string is valid JSON for the number 5, which is
returned as-is. -/
theorem safeParse_can_return_non_object :
    safeParse (Json.str "5") = Json.num 5 ∧ isObj (safeParse (Json.str "5")) = false := by
  refine ⟨?_, ?_⟩ <;> rfl

/-- C10 (amended): `safeParse` is a total function (it never throws):
on a falsy stored value (NULL, `0`, the empty string, `false`) it
returns the empty object; on a value that is already an object or an
array it returns that value unchanged; on a truthy string it returns
the `JSON.parse` of the string when that parse succeeds — a value that
need not be an object — and the empty object when the parse fails.
Hence `getRequest`, `createRequest` and `updateRequestStatus` always
obtain a value for `details`, malformed or not. -/
theorem safeParse_total_behavior (v : Json) :
    (truthy v = false → safeParse v = Json.obj []) ∧
    (isObjectLike v = true → truthy v = true → safeParse v = v) ∧
    (∀ str : String, v = Json.str str → truthy v = true → jsonParse str = none →
        safeParse v = Json.obj []) ∧
    (∀ str : String, ∀ w : Json, v = Json.str str → truthy v = true →
        jsonParse str = some w → safeParse v = w) := by
  refine ⟨?_, ?_, ?_, ?_⟩
  · intro hfv
    unfold safeParse
    rw [hfv]
    rfl
  · intro hobj htv
    unfold safeParse
    simp [htv, hobj]
  · intro str hv htv hparse
    subst hv
    unfold safeParse
    simp [htv, isObjectLike, jsCoerceString, hparse]
  · intro str w hv htv hparse
    subst hv
    unfold safeParse
    simp [htv, isObjectLike, jsCoerceString, hparse]

/-- Witness for C10 (amended), at the falsy value NULL. -/
theorem safeParse_total_behavior_witness :
    truthy Json.null = false ∧ safeParse Json.null = Json.obj [] :=
  ⟨by decide, (safeParse_total_behavior Json.null).1 (by decide)⟩
